import Mathlib

/-!
Shallow embedding of the SnipScreen screenshot editor core
(editor-tools.js, editor-events.js, editor-canvas.js and the main
ScreenshotEditor class): the tool state machine, the gesture commit
logic of handleMouseUp, the crop finalisation pipeline of completeCrop,
and the two-canvas rendering model of redrawCanvas.

Coordinates are modelled as rationals (JS numbers), canvas sizes as
integers.  JS Math.round is round-half-up, modelled by jsRound.
Canvas pixel contents are modelled symbolically: the offscreen canvas
holds an OffContent descriptor and the visible canvas holds the list of
draw operations last painted onto it, so that two equal descriptors
denote bit-identical rasters.
-/

/-- JS Math.round: round half towards positive infinity. -/
def jsRound (q : ℚ) : ℤ := ⌊q + 1/2⌋

/-- A point in canvas coordinates, as produced by getMousePos. -/
structure Pt where
  x : ℚ
  y : ℚ
deriving DecidableEq, Repr

/-- Element identifiers: the JS code builds them from Date.now() (and a
random hex suffix for text), e.g. anno-123, arrow-123, text-123-ab. -/
inductive ElemId where
  | anno (t : ℕ)
  | arr (t : ℕ)
  | txt (t : ℕ) (r : ℕ)
deriving DecidableEq, Repr

/-- The four mutually exclusive drawing tools of toggleTool. -/
inductive Tool where
  | crop
  | annotate
  | text
  | arrow
deriving DecidableEq, Repr

/-- A blackout rectangle, as pushed by handleMouseUp for the annotate
tool: a type tag (always "rect"), id, geometry and fill color. -/
structure RectMask where
  etype : String
  id : ElemId
  x : ℚ
  y : ℚ
  width : ℚ
  height : ℚ
  color : String
deriving DecidableEq, Repr

/-- A text label, as committed by finalizeTextInput. -/
structure TextLabel where
  id : ElemId
  text : String
  x : ℚ
  y : ℚ
  font : String
  color : String
  isEditing : Bool
deriving DecidableEq, Repr

/-- A directed arrow, as pushed by handleMouseUp for the arrow tool. -/
structure ArrowElem where
  etype : String
  id : ElemId
  x1 : ℚ
  y1 : ℚ
  x2 : ℚ
  y2 : ℚ
  color : String
  headSize : ℚ
deriving DecidableEq, Repr

/-- Contents of the offscreen source canvas: either the full original
image or a region extracted from it by completeCrop. -/
inductive OffContent where
  | fromImage (imgId : ℕ)
  | cropOf (imgId : ℕ) (sx sy sw sh : ℤ)
deriving DecidableEq, Repr

/-- One drawing operation of redrawCanvas; the visible canvas raster is
modelled as the list of operations last painted. -/
inductive DrawOp where
  | blit (c : OffContent)
  | fillRect (x y w h : ℚ) (color : String)
  | strokeArrow (x1 y1 x2 y2 : ℚ) (color : String) (headSize : ℚ)
  | fillText (text : String) (x y : ℚ) (font color : String)
deriving DecidableEq, Repr

/-- The original screenshot image (never reprocessed after load). -/
structure OrigImage where
  imgId : ℕ
  naturalW : ℤ
  naturalH : ℤ
deriving DecidableEq, Repr

/-- Cached bounding client rectangle of the visible canvas. -/
structure CRect where
  left : ℚ
  top : ℚ
  width : ℚ
  height : ℚ
deriving DecidableEq, Repr

/-- The editor session state: tool set, drawing state, canvas pair,
element lists and the user-visible message channels.  toasts records
showToast calls (user-visible), warns records console warnings
(developer-only). -/
structure EditorState where
  activeTools : Tool → Bool
  toolVisible : Tool → Bool
  cropOnlyMode : Bool
  storedCropOnlyMode : Bool
  isDrawing : Bool
  isEditingText : Bool
  cropStart : Option Pt
  cropEnd : Option Pt
  annotateStart : Option Pt
  arrowStart : Option Pt
  arrowEnd : Option Pt
  canvasW : ℤ
  canvasH : ℤ
  offW : ℤ
  offH : ℤ
  offContent : OffContent
  visible : List DrawOp
  lastImageData : Option (List DrawOp)
  originalImage : Option OrigImage
  maskElems : List RectMask
  textElems : List TextLabel
  arrowElems : List ArrowElem
  movingText : Option Unit
  currentText : Option TextLabel
  textInputValue : String
  canvasRect : Option CRect
  toasts : List String
  warns : List String
  spinner : Bool

/-- showToast: append a user-visible message. -/
def toast (s : EditorState) (m : String) : EditorState :=
  { s with toasts := s.toasts ++ [m] }

/-- console.warn: append a developer-console message. -/
def warn (s : EditorState) (m : String) : EditorState :=
  { s with warns := s.warns ++ [m] }

/-- redrawCanvas draw order: blit the offscreen canvas, then masks of
type "rect", then arrows of type "arrow" (falsy color and headSize fall
back to the config defaults), then nonempty text labels. -/
def render (s : EditorState) : List DrawOp :=
  DrawOp.blit s.offContent ::
    ((s.maskElems.filterMap fun m =>
        if m.etype = "rect" then
          some (DrawOp.fillRect m.x m.y m.width m.height m.color)
        else none) ++
      (s.arrowElems.filterMap fun a =>
        if a.etype = "arrow" then
          some (DrawOp.strokeArrow a.x1 a.y1 a.x2 a.y2
            (if a.color = "" then "#FF0000" else a.color)
            (if a.headSize = 0 then 25 else a.headSize))
        else none) ++
      (s.textElems.filterMap fun t =>
        if t.text = "" then none
        else
          some (DrawOp.fillText t.text t.x t.y
            (if t.font = "" then "20px sans-serif" else t.font)
            (if t.color = "" then "#FF0000" else t.color))))

/-- redrawCanvas: repaint the visible canvas from the offscreen canvas
and the element layers. -/
def redrawCanvas (s : EditorState) : EditorState :=
  { s with visible := render s }

/-- saveCanvasState: snapshot the visible canvas raster. -/
def saveCanvasState (s : EditorState) : EditorState :=
  { s with lastImageData := some s.visible }

/-- restoreCanvasState: restore the snapshot, or fall back to a full
redraw when no snapshot exists. -/
def restoreCanvasState (s : EditorState) : EditorState :=
  { s with visible := s.lastImageData.getD (render s) }

/-- resetCropState: clear the transient crop selection and redraw. -/
def resetCropState (s : EditorState) : EditorState :=
  redrawCanvas { s with cropStart := none, cropEnd := none }

/-- Is any of the four drawing tools active (activeTools.size test). -/
def anyToolActive (s : EditorState) : Bool :=
  s.activeTools Tool.crop || s.activeTools Tool.annotate ||
    s.activeTools Tool.text || s.activeTools Tool.arrow

/-- Number of active tools among the four drawing tools. -/
def activeCount (s : EditorState) : ℕ :=
  cond (s.activeTools Tool.crop) 1 0 + cond (s.activeTools Tool.annotate) 1 0 +
    cond (s.activeTools Tool.text) 1 0 + cond (s.activeTools Tool.arrow) 1 0

/-- At most one of crop, annotate, text, arrow is active. -/
def atMostOneActive (s : EditorState) : Prop := activeCount s ≤ 1

instance (s : EditorState) : Decidable (atMostOneActive s) :=
  inferInstanceAs (Decidable (activeCount s ≤ 1))

/-- hideTextInput: close the overlay and clear the draft. -/
def hideTextInput (s : EditorState) : EditorState :=
  { s with textInputValue := "", isEditingText := false, currentText := none }

/-- Replace the first list entry satisfying p (findIndex semantics). -/
def updateFirst (p : α → Bool) (f : α → α) : List α → List α
  | [] => []
  | a :: as => if p a then f a :: as else a :: updateFirst p f as

/-- showTextInput: open a text-edit draft anchored at (x, y); the id is
built from the Date.now() value t and the random suffix r. -/
def showTextInput (s : EditorState) (x y : ℚ) (t r : ℕ) : EditorState :=
  if s.isEditingText then s
  else
    { s with
      isEditingText := true, textInputValue := "",
      currentText := some
        { id := ElemId.txt t r, text := "", x := x, y := y,
          font := "20px sans-serif", color := "#FF0000", isEditing := true } }

/-- The text-list commit of finalizeTextInput: update the first element
carrying the draft id in place when one exists (findIndex semantics),
else append a new label built from the draft anchor and the entered
text. -/
def commitTextElems (l : List TextLabel) (d : TextLabel)
    (entered : String) : List TextLabel :=
  if l.any (fun e => decide (e.id = d.id)) then
    updateFirst (fun e => decide (e.id = d.id))
      (fun e => { e with text := entered, isEditing := false }) l
  else
    l ++ [{ id := d.id, text := entered, x := d.x, y := d.y,
            font := "20px sans-serif", color := "#FF0000",
            isEditing := false }]

/-- finalizeTextInput: commit the entered text if nonblank, updating in
place when an element with the draft id already exists, else appending
a new label; a blank entry commits nothing. -/
def finalizeTextInput (s : EditorState) : EditorState :=
  match s.currentText with
  | none => s
  | some d =>
    if s.isEditingText = false then s
    else
      let entered := s.textInputValue
      let s1 := hideTextInput s
      let s2 :=
        if entered.trim ≠ "" then
          redrawCanvas { s1 with
            textElems := commitTextElems s1.textElems d entered }
        else redrawCanvas s1
      { s2 with currentText := none }

/-- cancelArrowDrawing: discard an in-flight arrow gesture and restore
the raster snapshot. -/
def cancelArrowDrawing (s : EditorState) : EditorState :=
  if s.isDrawing ∧ s.activeTools Tool.arrow then
    restoreCanvasState { s with
      isDrawing := false, arrowStart := none, arrowEnd := none }
  else s

/-- Instructional toast shown on tool activation. -/
def toolMsg : Tool → String
  | Tool.crop => "Drag to select crop area."
  | Tool.annotate => "Click and drag to draw rectangles."
  | Tool.text => "Click on the image to add text."
  | Tool.arrow => "Click and drag to draw an arrow."

/-- toggleTool preprocessing, second half: if an arrow is mid-draw and
a different tool is requested, cancel the arrow drawing first. -/
def cancelArrowIfSwitching (s1 : EditorState) (tool : Tool) : EditorState :=
  if s1.isDrawing ∧ s1.activeTools Tool.arrow ∧ tool ≠ Tool.arrow then
    cancelArrowDrawing s1
  else s1

/-- toggleTool preprocessing: finalize an open text edit, then cancel a
mid-draw arrow when switching away from the arrow tool. -/
def toggleToolPre (s : EditorState) (tool : Tool) : EditorState :=
  cancelArrowIfSwitching (if s.isEditingText then finalizeTextInput s else s)
    tool

/-- toggleTool main step: deactivate the tool if it was active (a crop
deactivation also redraws to clear the guides), else deactivate all
conflicting drawing tools, activate the requested one and surface the
instructional message. -/
def toggleToolApply (s2 : EditorState) (tool : Tool) : EditorState :=
  if s2.activeTools tool then
    let s3 := { s2 with
      activeTools := fun u => if u = tool then false else s2.activeTools u }
    if tool = Tool.crop then redrawCanvas s3 else s3
  else
    toast
      { s2 with activeTools := fun u => decide (u = tool) }
      (toolMsg tool)

/-- toggleTool from editor-tools.js: cropOnlyMode guards, hidden-tool
guard, finalize text / cancel arrow preprocessing, then deactivate the
tool if it was active, else deactivate all conflicting tools and
activate the requested one. -/
def toggleTool (s : EditorState) (tool : Tool) : EditorState :=
  if s.cropOnlyMode ∧ tool ≠ Tool.crop then
    warn s "Cannot activate other tools while in initial crop mode."
  else if s.cropOnlyMode ∧ tool = Tool.crop then
    toast s "Drag on the image to select crop area."
  else if s.toolVisible tool = false then
    warn s "Tool element not found or is hidden."
  else
    toggleToolApply (toggleToolPre s tool) tool

/-- getMousePos: map a client-space pointer event into canvas space
using the cached bounding rectangle (zero-size rectangles fall back to
scale 1) and clamp into the canvas bounds. -/
def getMousePos (rect : Option CRect) (canvasW canvasH : ℤ)
    (clientX clientY : ℚ) : Pt :=
  match rect with
  | none => { x := 0, y := 0 }
  | some r =>
    let scaleX : ℚ := if r.width = 0 then 1 else (canvasW : ℚ) / r.width
    let scaleY : ℚ := if r.height = 0 then 1 else (canvasH : ℚ) / r.height
    let cx := (clientX - r.left) * scaleX
    let cy := (clientY - r.top) * scaleY
    { x := max 0 (min cx (canvasW : ℚ)), y := max 0 (min cy (canvasH : ℚ)) }

/-- The RectMask pushed by handleMouseUp when an annotate gesture from
a to pos passes the minimum-size check; t is the Date.now() value. -/
def newMaskElem (a pos : Pt) (t : ℕ) : RectMask :=
  { etype := "rect", id := ElemId.anno t,
    x := min a.x pos.x, y := min a.y pos.y,
    width := |pos.x - a.x|, height := |pos.y - a.y|, color := "#000000" }

/-- The Arrow pushed by handleMouseUp when an arrow gesture from a to
pos passes the minimum-length check; t is the Date.now() value. -/
def newArrowElem (a pos : Pt) (t : ℕ) : ArrowElem :=
  { etype := "arrow", id := ElemId.arr t,
    x1 := a.x, y1 := a.y, x2 := pos.x, y2 := pos.y,
    color := "#FF0000", headSize := 25 }

/-- handleMouseDown: priority dispatch at pointer-down.  textHit models
whether getTextElementAtPos finds a label under the pointer; t and r
model Date.now() and the random id suffix. -/
def handleMouseDown (s : EditorState) (pos : Pt) (t r : ℕ)
    (textHit : Bool) : EditorState :=
  let s0 := { s with isDrawing := false, movingText := none }
  if s0.isEditingText then finalizeTextInput s0
  else if anyToolActive s0 = false ∧ textHit then
    { s0 with isDrawing := true, movingText := some () }
  else if s0.activeTools Tool.text then showTextInput s0 pos.x pos.y t r
  else if s0.activeTools Tool.arrow then
    saveCanvasState { s0 with
      isDrawing := true, arrowStart := some pos, arrowEnd := some pos }
  else if s0.activeTools Tool.crop then
    { s0 with isDrawing := true, cropStart := some pos, cropEnd := some pos }
  else if s0.activeTools Tool.annotate then
    saveCanvasState { s0 with isDrawing := true, annotateStart := some pos }
  else s0

/-- Per-axis clamped selection start in display coordinates:
min of the two gesture coordinates, clamped into [0, W]. -/
def clStart (sc ec : ℚ) (W : ℤ) : ℚ :=
  max 0 (min (min sc ec) (W : ℚ))

/-- Per-axis clamped selection size in display coordinates:
rounded absolute drag extent, at least 1, clamped to the space left of
the clamped start, then again at least 1. -/
def clSize (sc ec : ℚ) (W : ℤ) : ℚ :=
  max 1 (min (max 1 ((jsRound |ec - sc| : ℤ) : ℚ))
    ((W : ℚ) - clStart sc ec W))

/-- Per-axis source-rectangle origin on the original image: the clamped
display start scaled by NW / W, rounded and clamped into [0, NW]. -/
def srcStart (sc ec : ℚ) (W NW : ℤ) : ℤ :=
  max 0 (min (jsRound (clStart sc ec W * ((NW : ℚ) / (W : ℚ)))) NW)

/-- Per-axis source-rectangle size on the original image: the clamped
display size scaled, rounded, clamped to the remaining image, at
least 1. -/
def srcSize (sc ec : ℚ) (W NW : ℤ) : ℤ :=
  max 1 (min (jsRound (clSize sc ec W * ((NW : ℚ) / (W : ℚ))))
    (NW - srcStart sc ec W NW))

/-- completeCrop re-anchoring of a mask: scale into native-image space,
subtract the source-rectangle origin, round; width and height are
scaled and rounded. -/
def adjMask (sx sy ox oy : ℚ) (m : RectMask) : RectMask :=
  { m with
    x := ((jsRound (m.x * sx - ox) : ℤ) : ℚ)
    y := ((jsRound (m.y * sy - oy) : ℤ) : ℚ)
    width := ((jsRound (m.width * sx) : ℤ) : ℚ)
    height := ((jsRound (m.height * sy) : ℤ) : ℚ) }

/-- completeCrop re-anchoring of a text label (position only). -/
def adjText (sx sy ox oy : ℚ) (t : TextLabel) : TextLabel :=
  { t with
    x := ((jsRound (t.x * sx - ox) : ℤ) : ℚ)
    y := ((jsRound (t.y * sy - oy) : ℤ) : ℚ) }

/-- completeCrop re-anchoring of an arrow (both endpoints; the head
size keeps its absolute pixel value). -/
def adjArrow (sx sy ox oy : ℚ) (a : ArrowElem) : ArrowElem :=
  { a with
    x1 := ((jsRound (a.x1 * sx - ox) : ℤ) : ℚ)
    y1 := ((jsRound (a.y1 * sy - oy) : ℤ) : ℚ)
    x2 := ((jsRound (a.x2 * sx - ox) : ℤ) : ℚ)
    y2 := ((jsRound (a.y2 * sy - oy) : ℤ) : ℚ) }

/-- completeCrop retention test for masks: keep unless fully outside
the new canvas. -/
def maskKeep (W H : ℤ) (m : RectMask) : Bool :=
  decide (0 < m.x + m.width ∧ 0 < m.y + m.height ∧
    m.x < (W : ℚ) ∧ m.y < (H : ℚ))

/-- completeCrop retention test for text: keep with a generous margin
(500px left, 50px up, 10px right and down). -/
def textKeep (W H : ℤ) (t : TextLabel) : Bool :=
  decide (t.x < (W : ℚ) + 10 ∧ t.y < (H : ℚ) + 10 ∧
    -500 < t.x ∧ -50 < t.y)

/-- One arrow endpoint is within 20px of the new canvas bounds. -/
def arrowPtVisible (W H : ℤ) (x y : ℚ) : Bool :=
  decide (-20 < x ∧ x < (W : ℚ) + 20 ∧ -20 < y ∧ y < (H : ℚ) + 20)

/-- completeCrop retention test for arrows: keep if either endpoint is
somewhat within the new canvas bounds. -/
def arrowKeep (W H : ℤ) (a : ArrowElem) : Bool :=
  arrowPtVisible W H a.x1 a.y1 || arrowPtVisible W H a.x2 a.y2

/-- The resize / extract / re-anchor / filter stage of completeCrop:
both canvases take the source rectangle size, the offscreen canvas
receives the extracted region of the original image, and every element
list is rescaled by (scaleX, scaleY), shifted by the source-rectangle
origin, rounded and filtered against the new bounds. -/
def cropAdjusted (s : EditorState) (cs ce : Pt) (img : OrigImage) :
    EditorState :=
  let sx := (img.naturalW : ℚ) / (s.offW : ℚ)
  let sy := (img.naturalH : ℚ) / (s.offH : ℚ)
  let ox := srcStart cs.x ce.x s.offW img.naturalW
  let oy := srcStart cs.y ce.y s.offH img.naturalH
  let nw := srcSize cs.x ce.x s.offW img.naturalW
  let nh := srcSize cs.y ce.y s.offH img.naturalH
  { s with
    canvasW := nw, canvasH := nh, offW := nw, offH := nh
    offContent := OffContent.cropOf img.imgId ox oy nw nh
    maskElems :=
      (s.maskElems.map (adjMask sx sy (ox : ℚ) (oy : ℚ))).filter
        (maskKeep nw nh)
    textElems :=
      (s.textElems.map (adjText sx sy (ox : ℚ) (oy : ℚ))).filter
        (textKeep nw nh)
    arrowElems :=
      (s.arrowElems.map (adjArrow sx sy (ox : ℚ) (oy : ℚ))).filter
        (arrowKeep nw nh) }

/-- The mode-transition tail of completeCrop: when leaving the forced
crop-only session, reveal all tools, clear and persist the mode flag
and clear the active-tool set; otherwise only deactivate the crop
tool. -/
def cropModeExit (s1 : EditorState) : EditorState :=
  if s1.cropOnlyMode then
    { s1 with
      toolVisible := fun _ => true
      cropOnlyMode := false
      storedCropOnlyMode := false
      activeTools := fun _ => false
      toasts := s1.toasts ++ ["Crop complete. Editing tools enabled."] }
  else
    { s1 with
      toasts := s1.toasts ++ ["Crop applied."]
      activeTools :=
        fun t => if t = Tool.crop then false else s1.activeTools t }

/-- The whole success path of completeCrop, including the finally
block (crop-selection reset and spinner hide). -/
def completeCropCore (s : EditorState) (cs ce : Pt) (img : OrigImage) :
    EditorState :=
  { resetCropState (cropModeExit (cropAdjusted s cs ce img)) with
    spinner := false }

/-- completeCrop from editor-tools.js: prerequisite checks, display
rectangle clamping with too-small rejection, source rectangle
computation, canvas resizing and extraction, element re-anchoring and
filtering, and the cropOnlyMode exit; the finally block resets the crop
selection and hides the spinner. -/
def completeCrop (s : EditorState) : EditorState :=
  match s.cropStart, s.cropEnd, s.originalImage with
  | some cs, some ce, some img =>
    if s.activeTools Tool.crop = false then resetCropState s
    else if s.offW = 0 ∨ s.offH = 0 then
      resetCropState (toast s "Error: Invalid canvas dimensions before crop.")
    else
      let W := s.offW
      let H := s.offH
      if clSize cs.x ce.x W ≤ 1 ∨ clSize cs.y ce.y H ≤ 1 then
        resetCropState (toast s "Crop area is too small.")
      else completeCropCore s cs ce img
  | _, _, _ => resetCropState s

/-- The drawing-finalisation part of handleMouseUp (reached when a new
shape was being drawn): crop invokes completeCrop, annotate commits a
mask only above the 1px minimum, arrow commits only above squared
length 25, otherwise the raster snapshot is restored. -/
def mouseUpDraw (s1 : EditorState) (pos : Pt) (t : ℕ) : EditorState :=
  if s1.activeTools Tool.crop ∧ s1.cropStart.isSome then
    completeCrop { s1 with cropEnd := some pos }
  else
    match s1.activeTools Tool.annotate, s1.annotateStart with
    | true, some a =>
      let w := |pos.x - a.x|
      let h := |pos.y - a.y|
      let s2 :=
        if 1 < w ∧ 1 < h then
          redrawCanvas { s1 with
            maskElems := s1.maskElems ++ [newMaskElem a pos t] }
        else restoreCanvasState s1
      { s2 with annotateStart := none }
    | _, _ =>
      match s1.activeTools Tool.arrow, s1.arrowStart with
      | true, some a =>
        let sMid := { s1 with arrowEnd := some pos }
        let lsq := (pos.x - a.x) ^ 2 + (pos.y - a.y) ^ 2
        let s2 :=
          if 25 < lsq then
            redrawCanvas { sMid with
              arrowElems := sMid.arrowElems ++ [newArrowElem a pos t] }
          else restoreCanvasState sMid
        { s2 with arrowStart := none, arrowEnd := none }
      | _, _ => s1

/-- handleMouseUp: finalize a text move or a new-shape drawing; t
models Date.now() at the commit. -/
def handleMouseUp (s : EditorState) (pos : Pt) (t : ℕ) : EditorState :=
  if s.movingText.isSome then
    if s.isDrawing then
      redrawCanvas { s with isDrawing := false, movingText := none }
    else s
  else if s.isDrawing then
    mouseUpDraw { s with isDrawing := false } pos t
  else s

/-- A blank editor session used to build concrete states for the
evaluation theorems below. -/
def blankState : EditorState :=
  { activeTools := fun _ => false
    toolVisible := fun _ => true
    cropOnlyMode := false, storedCropOnlyMode := false
    isDrawing := false, isEditingText := false
    cropStart := none, cropEnd := none
    annotateStart := none, arrowStart := none, arrowEnd := none
    canvasW := 800, canvasH := 600, offW := 800, offH := 600
    offContent := OffContent.fromImage 0
    visible := [DrawOp.blit (OffContent.fromImage 0)]
    lastImageData := none
    originalImage := some { imgId := 0, naturalW := 800, naturalH := 600 }
    maskElems := [], textElems := [], arrowElems := []
    movingText := none, currentText := none, textInputValue := ""
    canvasRect := none, toasts := [], warns := [], spinner := false }

/-- C10: getMousePos always yields a point inside the canvas bounds,
also when the cached rectangle is missing or has zero width or height
(scale falls back to 1, no division by zero), and consequently the
anchor of a mask committed from two such points lies inside the
bounds. -/
theorem getMousePos_bounds (rect : Option CRect) (W H : ℤ) (cx cy : ℚ)
    (hW : 0 ≤ W) (hH : 0 ≤ H) :
    (0 ≤ (getMousePos rect W H cx cy).x ∧
      (getMousePos rect W H cx cy).x ≤ (W : ℚ) ∧
      0 ≤ (getMousePos rect W H cx cy).y ∧
      (getMousePos rect W H cx cy).y ≤ (H : ℚ)) ∧
    (∀ (a pos : Pt) (t : ℕ),
      0 ≤ a.x → a.x ≤ (W : ℚ) → 0 ≤ pos.x → pos.x ≤ (W : ℚ) →
      0 ≤ a.y → a.y ≤ (H : ℚ) → 0 ≤ pos.y → pos.y ≤ (H : ℚ) →
      0 ≤ (newMaskElem a pos t).x ∧ (newMaskElem a pos t).x ≤ (W : ℚ) ∧
        0 ≤ (newMaskElem a pos t).y ∧ (newMaskElem a pos t).y ≤ (H : ℚ)) := by
  have hWQ : (0 : ℚ) ≤ (W : ℚ) := by exact_mod_cast hW
  have hHQ : (0 : ℚ) ≤ (H : ℚ) := by exact_mod_cast hH
  constructor
  · cases rect with
    | none => simp [getMousePos]; omega
    | some r =>
      refine ⟨le_max_left _ _, max_le hWQ (min_le_right _ _),
        le_max_left _ _, max_le hHQ (min_le_right _ _)⟩
  · intro a pos t hax1 hax2 hpx1 hpx2 hay1 hay2 hpy1 hpy2
    exact ⟨le_min hax1 hpx1, le_trans (min_le_left _ _) hax2,
      le_min hay1 hpy1, le_trans (min_le_left _ _) hay2⟩

/-- Witness for C10 at a concrete input with a zero-size cached
rectangle. -/
theorem getMousePos_bounds_witness :
    (0 : ℤ) ≤ 4 ∧
      0 ≤ (getMousePos (some ⟨0, 0, 0, 0⟩) 4 3 10 2).x ∧
      (getMousePos (some ⟨0, 0, 0, 0⟩) 4 3 10 2).x ≤ ((4 : ℤ) : ℚ) :=
  ⟨by norm_num,
    (getMousePos_bounds (some ⟨0, 0, 0, 0⟩) 4 3 10 2
      (by norm_num) (by norm_num)).1.1,
    (getMousePos_bounds (some ⟨0, 0, 0, 0⟩) 4 3 10 2
      (by norm_num) (by norm_num)).1.2.1⟩

/-- One redraw after another is the same as one redraw. -/
theorem redraw_redraw (s : EditorState) :
    redrawCanvas (redrawCanvas s) = redrawCanvas s := rfl

/-- Iterating redrawCanvas at least once always lands on redrawCanvas
applied once. -/
theorem redraw_iterate (s : EditorState) (m : ℕ) :
    redrawCanvas^[m + 1] s = redrawCanvas s := by
  induction m with
  | zero => rfl
  | succ k ih =>
    rw [Function.iterate_succ_apply', ih, redraw_redraw]

/-- C8: redraw is idempotent: N consecutive redraws with no state
change in between leave the visible canvas bit-identical to a single
redraw, and redraw never modifies the source bitmap or the element
lists. -/
theorem redraw_idempotent (s : EditorState) (n : ℕ) (hn : 1 ≤ n) :
    (redrawCanvas^[n] s).visible = (redrawCanvas s).visible ∧
    (redrawCanvas s).offContent = s.offContent ∧
    (redrawCanvas s).offW = s.offW ∧ (redrawCanvas s).offH = s.offH ∧
    (redrawCanvas s).maskElems = s.maskElems ∧
    (redrawCanvas s).textElems = s.textElems ∧
    (redrawCanvas s).arrowElems = s.arrowElems := by
  obtain ⟨m, rfl⟩ : ∃ m, n = m + 1 := ⟨n - 1, by omega⟩
  rw [redraw_iterate]
  exact ⟨rfl, rfl, rfl, rfl, rfl, rfl, rfl⟩

/-- Witness for C8 with three consecutive redraws of a concrete
session. -/
theorem redraw_idempotent_witness :
    1 ≤ 3 ∧
      (redrawCanvas^[3] blankState).visible =
        (redrawCanvas blankState).visible :=
  ⟨by norm_num, (redraw_idempotent blankState 3 (by norm_num)).1⟩

/-- A concrete session stuck in the initial forced-crop mode. -/
def cropOnlyState : EditorState :=
  { blankState with
    cropOnlyMode := true
    activeTools := fun t => decide (t = Tool.crop) }

/-- C7 as stated is false: with cropOnlyMode set and a non-crop tool
requested, toggleTool leaves the tool state unchanged but surfaces no
user-visible hint; only a console warning is logged (the hint toast
exists only for tool = crop).  At this input the toast list stays
empty. -/
theorem toggleTool_cropOnly_no_user_hint :
    cropOnlyState.cropOnlyMode = true ∧ Tool.annotate ≠ Tool.crop ∧
      (toggleTool cropOnlyState Tool.annotate).toasts =
        cropOnlyState.toasts := by
  refine ⟨rfl, by decide, ?_⟩
  simp [toggleTool, cropOnlyState, blankState, warn]

/-- C7 amended: with cropOnlyMode set and a non-crop tool requested,
toggleTool is a no-op except for a developer-console warning: no tool
is activated or deactivated, no drawing state changes, and no
user-visible toast is surfaced. -/
theorem toggleTool_cropOnly_noop (s : EditorState) (t : Tool)
    (h1 : s.cropOnlyMode = true) (h2 : t ≠ Tool.crop) :
    toggleTool s t =
      warn s "Cannot activate other tools while in initial crop mode." := by
  simp [toggleTool, h1, h2]

/-- Witness for the amended C7 at a concrete input. -/
theorem toggleTool_cropOnly_noop_witness :
    cropOnlyState.cropOnlyMode = true ∧
      toggleTool cropOnlyState Tool.text =
        warn cropOnlyState
          "Cannot activate other tools while in initial crop mode." :=
  ⟨rfl, toggleTool_cropOnly_noop cropOnlyState Tool.text rfl (by decide)⟩

/-- finalizeTextInput never touches the active-tool set. -/
theorem finalizeTextInput_activeTools (s : EditorState) :
    (finalizeTextInput s).activeTools = s.activeTools := by
  cases hc : s.currentText with
  | none => simp [finalizeTextInput, hc]
  | some d =>
    simp only [finalizeTextInput, hc]
    split_ifs <;> rfl

/-- cancelArrowDrawing never touches the active-tool set. -/
theorem cancelArrowDrawing_activeTools (s : EditorState) :
    (cancelArrowDrawing s).activeTools = s.activeTools := by
  unfold cancelArrowDrawing restoreCanvasState
  split_ifs <;> rfl

/-- toggleTool preprocessing never touches the active-tool set. -/
theorem toggleToolPre_activeTools (s : EditorState) (tool : Tool) :
    (toggleToolPre s tool).activeTools = s.activeTools := by
  unfold toggleToolPre cancelArrowIfSwitching
  split_ifs <;>
    simp [cancelArrowDrawing_activeTools, finalizeTextInput_activeTools]

/-- The toggleTool main step keeps at most one tool active. -/
theorem toggleToolApply_atMostOne (s2 : EditorState) (t : Tool)
    (h : atMostOneActive s2) : atMostOneActive (toggleToolApply s2 t) := by
  unfold toggleToolApply
  unfold atMostOneActive activeCount at *
  by_cases ha : s2.activeTools t = true
  · cases t <;>
      simp only [ha, if_pos, if_neg, redrawCanvas] <;>
      split_ifs <;>
      simp_all <;>
      omega
  · simp only [Bool.not_eq_true] at ha
    cases t <;> simp [ha, toast]

/-- One toggleTool call preserves the at-most-one-active invariant. -/
theorem toggleTool_step (s : EditorState) (t : Tool)
    (h : atMostOneActive s) : atMostOneActive (toggleTool s t) := by
  unfold toggleTool
  split_ifs with h1 h2 h3
  · exact h
  · exact h
  · exact h
  · apply toggleToolApply_atMostOne
    unfold atMostOneActive activeCount at *
    rw [toggleToolPre_activeTools]
    exact h

/-- C2: for every sequence of toggleTool calls from a state with at
most one of the four drawing tools active, at most one remains active
after each call, and activating an inactive visible tool (outside
cropOnlyMode) deactivates every other tool of the set, leaving exactly
the requested tool active. -/
theorem toggleTool_mutual_exclusion (s : EditorState) (ts : List Tool)
    (h : atMostOneActive s) :
    atMostOneActive (ts.foldl toggleTool s) ∧
    (∀ (u : EditorState) (t : Tool), u.cropOnlyMode = false →
      u.toolVisible t = true → u.activeTools t = false →
      ∀ v : Tool, (toggleTool u t).activeTools v = decide (v = t)) := by
  constructor
  · induction ts generalizing s with
    | nil => exact h
    | cons t rest ih => exact ih _ (toggleTool_step s t h)
  · intro u t h1 h2 h3 v
    unfold toggleTool
    rw [if_neg (by simp [h1]), if_neg (by simp [h1]), if_neg (by simp [h2])]
    unfold toggleToolApply
    rw [if_neg (by rw [toggleToolPre_activeTools, h3]; simp)]
    rfl

/-- Witness for C2: a session with only the text tool active stays
mutually exclusive over a concrete toggle sequence. -/
theorem toggleTool_mutual_exclusion_witness :
    atMostOneActive
      { blankState with activeTools := fun t => decide (t = Tool.text) } ∧
    atMostOneActive (List.foldl toggleTool
      { blankState with activeTools := fun t => decide (t = Tool.text) }
      [Tool.crop, Tool.arrow]) :=
  ⟨by decide,
    (toggleTool_mutual_exclusion
      { blankState with activeTools := fun t => decide (t = Tool.text) }
      [Tool.crop, Tool.arrow] (by decide)).1⟩

/-- Rounding zero. -/
theorem jsRound_zero : jsRound 0 = 0 := by norm_num [jsRound]

/-- A degenerate selection with equal endpoints always clamps to a
display size of at most one pixel. -/
theorem clSize_same (c : ℚ) (W : ℤ) : clSize c c W ≤ 1 := by
  have h0 : |c - c| = (0 : ℚ) := by simp
  rw [clSize, h0, jsRound_zero]
  norm_num

/-- C5: completeCrop aborts without touching the canvases, the source
content or any element list, and clears the transient crop selection,
whenever a prerequisite fails (missing selection endpoint, equal
selection endpoints, crop tool inactive, missing source image, or a
zero-sized canvas) or the clamped display selection is at most 1px in
either dimension; when the clamped selection is too small with all
prerequisites met, the user sees the too-small error toast. -/
theorem completeCrop_abort (s : EditorState)
    (h : s.cropStart = none ∨ s.cropEnd = none ∨ s.cropStart = s.cropEnd ∨
      s.activeTools Tool.crop = false ∨ s.originalImage = none ∨
      s.offW = 0 ∨ s.offH = 0 ∨
      (∀ cs ce : Pt, s.cropStart = some cs → s.cropEnd = some ce →
        clSize cs.x ce.x s.offW ≤ 1 ∨ clSize cs.y ce.y s.offH ≤ 1)) :
    ((completeCrop s).canvasW = s.canvasW ∧
     (completeCrop s).canvasH = s.canvasH ∧
     (completeCrop s).offW = s.offW ∧ (completeCrop s).offH = s.offH ∧
     (completeCrop s).offContent = s.offContent ∧
     (completeCrop s).maskElems = s.maskElems ∧
     (completeCrop s).textElems = s.textElems ∧
     (completeCrop s).arrowElems = s.arrowElems ∧
     (completeCrop s).cropStart = none ∧ (completeCrop s).cropEnd = none) ∧
    (∀ cs ce : Pt, s.cropStart = some cs → s.cropEnd = some ce →
      s.activeTools Tool.crop = true → s.originalImage ≠ none →
      ¬ s.offW = 0 → ¬ s.offH = 0 →
      (clSize cs.x ce.x s.offW ≤ 1 ∨ clSize cs.y ce.y s.offH ≤ 1) →
      "Crop area is too small." ∈ (completeCrop s).toasts) := by
  constructor
  · cases hcs : s.cropStart with
    | none =>
      simp [completeCrop, hcs, resetCropState, redrawCanvas]
    | some cs =>
      cases hce : s.cropEnd with
      | none =>
        simp [completeCrop, hcs, hce, resetCropState, redrawCanvas]
      | some ce =>
        cases himg : s.originalImage with
        | none =>
          simp [completeCrop, hcs, hce, himg, resetCropState, redrawCanvas]
        | some img =>
          by_cases hact : s.activeTools Tool.crop = false
          · simp [completeCrop, hcs, hce, himg, hact, resetCropState,
              redrawCanvas]
          · by_cases hdim : s.offW = 0 ∨ s.offH = 0
            · simp [completeCrop, hcs, hce, himg, hact, hdim,
                resetCropState, redrawCanvas, toast]
            · have hsmall : clSize cs.x ce.x s.offW ≤ 1 ∨
                  clSize cs.y ce.y s.offH ≤ 1 := by
                rcases h with h | h | h | h | h | h | h | h
                · exact absurd hcs (by rw [h]; simp)
                · exact absurd hce (by rw [h]; simp)
                · rw [hcs, hce] at h
                  obtain rfl : cs = ce := by injection h
                  exact Or.inl (clSize_same cs.x s.offW)
                · exact absurd h hact
                · exact absurd himg (by rw [h]; simp)
                · exact absurd h (by tauto)
                · exact absurd h (by tauto)
                · exact h cs ce hcs hce
              simp [completeCrop, hcs, hce, himg, hact, hdim, hsmall,
                resetCropState, redrawCanvas, toast]
  · intro cs ce hcs hce hact himg hW hH hsmall
    cases himg' : s.originalImage with
    | none => exact absurd himg' himg
    | some img =>
      have hdim : ¬ (s.offW = 0 ∨ s.offH = 0) := by tauto
      simp [completeCrop, hcs, hce, himg', hact, hdim, hsmall,
        resetCropState, redrawCanvas, toast]

/-- A concrete state whose crop selection clamps below the minimum
size (a 1px-wide drag). -/
def tinyCropState : EditorState :=
  { blankState with
    activeTools := fun t => decide (t = Tool.crop)
    cropStart := some ⟨10, 10⟩
    cropEnd := some ⟨21/2, 20⟩ }

/-- Witness for C5 at the concrete too-small selection. -/
theorem completeCrop_abort_witness :
    (completeCrop tinyCropState).maskElems = tinyCropState.maskElems ∧
      (completeCrop tinyCropState).offW = tinyCropState.offW ∧
      (completeCrop tinyCropState).cropStart = none ∧
      "Crop area is too small." ∈ (completeCrop tinyCropState).toasts := by
  have habort := completeCrop_abort tinyCropState
    (by
      refine Or.inr (Or.inr (Or.inr (Or.inr (Or.inr (Or.inr (Or.inr ?_))))))
      intro cs ce hcs hce
      rw [show tinyCropState.cropStart = some ⟨10, 10⟩ from rfl] at hcs
      rw [show tinyCropState.cropEnd = some ⟨21/2, 20⟩ from rfl] at hce
      obtain rfl : cs = (⟨10, 10⟩ : Pt) := by injection hcs with h; exact h.symm
      obtain rfl : ce = (⟨21/2, 20⟩ : Pt) := by injection hce with h; exact h.symm
      left
      show clSize 10 (21/2) tinyCropState.offW ≤ 1
      norm_num [clSize, clStart, jsRound, tinyCropState, blankState,
        abs_of_nonneg])
  refine ⟨habort.1.2.2.2.2.2.1, habort.1.2.2.1, habort.1.2.2.2.2.2.2.2.2.1, ?_⟩
  exact habort.2 ⟨10, 10⟩ ⟨21/2, 20⟩ rfl rfl rfl (by simp [tinyCropState, blankState])
    (by norm_num [tinyCropState, blankState])
    (by norm_num [tinyCropState, blankState])
    (by
      left
      norm_num [clSize, clStart, jsRound, tinyCropState, blankState,
        abs_of_nonneg])

/-- On the success path, completeCrop is exactly the core resize,
re-anchor, filter and mode-exit pipeline. -/
theorem completeCrop_success (s : EditorState) (cs ce : Pt)
    (img : OrigImage)
    (hcs : s.cropStart = some cs) (hce : s.cropEnd = some ce)
    (himg : s.originalImage = some img)
    (hact : s.activeTools Tool.crop = true)
    (hW : ¬ s.offW = 0) (hH : ¬ s.offH = 0)
    (hw : ¬ clSize cs.x ce.x s.offW ≤ 1)
    (hh : ¬ clSize cs.y ce.y s.offH ≤ 1) :
    completeCrop s = completeCropCore s cs ce img := by
  have hact' : ¬ s.activeTools Tool.crop = false := by simp [hact]
  simp [completeCrop, hcs, hce, himg, hact', hW, hH, hw, hh]

/-- The 800x600 session of the specification scenario: crop tool
active, selection dragged from (100,100) to (300,250), one mask at
(50,50) sized 20x20. -/
def scenarioState : EditorState :=
  { blankState with
    activeTools := fun t => decide (t = Tool.crop)
    cropStart := some ⟨100, 100⟩
    cropEnd := some ⟨300, 250⟩
    maskElems :=
      [{ etype := "rect", id := ElemId.anno 1, x := 50, y := 50,
         width := 20, height := 20, color := "#000000" }] }

/-- The selection of the scenario session is comfortably larger than
the 1px minimum in x. -/
theorem scenario_clSize_x : ¬ clSize 100 300 (800 : ℤ) ≤ 1 := by
  norm_num [clSize, clStart, jsRound, abs_of_nonneg]

/-- The selection of the scenario session is comfortably larger than
the 1px minimum in y. -/
theorem scenario_clSize_y : ¬ clSize 100 250 (600 : ℤ) ≤ 1 := by
  norm_num [clSize, clStart, jsRound, abs_of_nonneg]

/-- C6: when a crop completes successfully in cropOnlyMode, the mode
flag clears, every tool is deactivated, the cleared flag is persisted,
all tools become visible, and the success toast is surfaced; outside
cropOnlyMode only the crop tool is deactivated, the other tools keep
their state. -/
theorem crop_mode_transition (s : EditorState) (cs ce : Pt)
    (img : OrigImage)
    (hcs : s.cropStart = some cs) (hce : s.cropEnd = some ce)
    (himg : s.originalImage = some img)
    (hact : s.activeTools Tool.crop = true)
    (hW : ¬ s.offW = 0) (hH : ¬ s.offH = 0)
    (hw : ¬ clSize cs.x ce.x s.offW ≤ 1)
    (hh : ¬ clSize cs.y ce.y s.offH ≤ 1) :
    (s.cropOnlyMode = true →
      (completeCrop s).cropOnlyMode = false ∧
      (∀ t, (completeCrop s).activeTools t = false) ∧
      (completeCrop s).storedCropOnlyMode = false ∧
      (∀ t, (completeCrop s).toolVisible t = true) ∧
      "Crop complete. Editing tools enabled." ∈ (completeCrop s).toasts) ∧
    (s.cropOnlyMode = false →
      (completeCrop s).activeTools Tool.crop = false ∧
      (∀ t, t ≠ Tool.crop →
        (completeCrop s).activeTools t = s.activeTools t)) := by
  rw [completeCrop_success s cs ce img hcs hce himg hact hW hH hw hh]
  constructor
  · intro hmode
    have hmode' : (cropAdjusted s cs ce img).cropOnlyMode = true := hmode
    unfold completeCropCore resetCropState redrawCanvas cropModeExit
    simp [hmode']
  · intro hmode
    have hmode' : ¬ (cropAdjusted s cs ce img).cropOnlyMode = true := by
      show ¬ s.cropOnlyMode = true
      simp [hmode]
    unfold completeCropCore resetCropState redrawCanvas cropModeExit
    simp only [hmode', if_neg, Bool.not_eq_true]
    constructor
    · simp
    · intro t ht
      simp [ht]
      rfl

/-- Witness for C6: the scenario session run in forced crop-only
mode. -/
theorem crop_mode_transition_witness :
    { scenarioState with cropOnlyMode := true }.cropOnlyMode = true ∧
      (completeCrop
        { scenarioState with cropOnlyMode := true }).cropOnlyMode = false ∧
      (completeCrop
        { scenarioState with cropOnlyMode := true }).storedCropOnlyMode
          = false :=
  ⟨rfl,
    ((crop_mode_transition { scenarioState with cropOnlyMode := true }
        ⟨100, 100⟩ ⟨300, 250⟩ { imgId := 0, naturalW := 800, naturalH := 600 }
        rfl rfl rfl rfl (by norm_num [scenarioState, blankState])
        (by norm_num [scenarioState, blankState])
        scenario_clSize_x scenario_clSize_y).1 rfl).1,
    ((crop_mode_transition { scenarioState with cropOnlyMode := true }
        ⟨100, 100⟩ ⟨300, 250⟩ { imgId := 0, naturalW := 800, naturalH := 600 }
        rfl rfl rfl rfl (by norm_num [scenarioState, blankState])
        (by norm_num [scenarioState, blankState])
        scenario_clSize_x scenario_clSize_y).1 rfl).2.2.1⟩

/-- The mode-exit and finally stages do not touch the mask list. -/
theorem completeCropCore_maskElems (s : EditorState) (cs ce : Pt)
    (img : OrigImage) :
    (completeCropCore s cs ce img).maskElems =
      (cropAdjusted s cs ce img).maskElems := by
  unfold completeCropCore resetCropState redrawCanvas cropModeExit
  split_ifs <;> rfl

/-- The mode-exit and finally stages do not touch the text list. -/
theorem completeCropCore_textElems (s : EditorState) (cs ce : Pt)
    (img : OrigImage) :
    (completeCropCore s cs ce img).textElems =
      (cropAdjusted s cs ce img).textElems := by
  unfold completeCropCore resetCropState redrawCanvas cropModeExit
  split_ifs <;> rfl

/-- The mode-exit and finally stages do not touch the arrow list. -/
theorem completeCropCore_arrowElems (s : EditorState) (cs ce : Pt)
    (img : OrigImage) :
    (completeCropCore s cs ce img).arrowElems =
      (cropAdjusted s cs ce img).arrowElems := by
  unfold completeCropCore resetCropState redrawCanvas cropModeExit
  split_ifs <;> rfl

/-- The mode-exit and finally stages do not touch the canvas sizes. -/
theorem completeCropCore_canvas (s : EditorState) (cs ce : Pt)
    (img : OrigImage) :
    (completeCropCore s cs ce img).canvasW =
        srcSize cs.x ce.x s.offW img.naturalW ∧
      (completeCropCore s cs ce img).canvasH =
        srcSize cs.y ce.y s.offH img.naturalH := by
  unfold completeCropCore resetCropState redrawCanvas cropModeExit
  split_ifs <;> exact ⟨rfl, rfl⟩

/-- C3: after the re-anchoring step of a successful completeCrop with
new canvas size (nw, nh), a mask is retained iff x + width > 0,
y + height > 0, x < nw and y < nh; a text label iff x < nw + 10,
y < nh + 10, x > -500 and y > -50; an arrow iff at least one endpoint
(xi, yi) satisfies xi > -20, xi < nw + 20, yi > -20 and yi < nh + 20. -/
theorem crop_retention_margins (s : EditorState) (cs ce : Pt)
    (img : OrigImage) (sx sy oxq oyq : ℚ) (nw nh : ℤ)
    (hcs : s.cropStart = some cs) (hce : s.cropEnd = some ce)
    (himg : s.originalImage = some img)
    (hact : s.activeTools Tool.crop = true)
    (hW : ¬ s.offW = 0) (hH : ¬ s.offH = 0)
    (hw : ¬ clSize cs.x ce.x s.offW ≤ 1)
    (hh : ¬ clSize cs.y ce.y s.offH ≤ 1)
    (hsx : sx = (img.naturalW : ℚ) / (s.offW : ℚ))
    (hsy : sy = (img.naturalH : ℚ) / (s.offH : ℚ))
    (hox : oxq = ((srcStart cs.x ce.x s.offW img.naturalW : ℤ) : ℚ))
    (hoy : oyq = ((srcStart cs.y ce.y s.offH img.naturalH : ℤ) : ℚ))
    (hnw : nw = srcSize cs.x ce.x s.offW img.naturalW)
    (hnh : nh = srcSize cs.y ce.y s.offH img.naturalH) :
    (completeCrop s).canvasW = nw ∧ (completeCrop s).canvasH = nh ∧
    (∀ m : RectMask, m ∈ (completeCrop s).maskElems ↔
      (m ∈ s.maskElems.map (adjMask sx sy oxq oyq) ∧
        (0 < m.x + m.width ∧ 0 < m.y + m.height ∧
          m.x < (nw : ℚ) ∧ m.y < (nh : ℚ)))) ∧
    (∀ tl : TextLabel, tl ∈ (completeCrop s).textElems ↔
      (tl ∈ s.textElems.map (adjText sx sy oxq oyq) ∧
        (tl.x < (nw : ℚ) + 10 ∧ tl.y < (nh : ℚ) + 10 ∧
          -500 < tl.x ∧ -50 < tl.y))) ∧
    (∀ ar : ArrowElem, ar ∈ (completeCrop s).arrowElems ↔
      (ar ∈ s.arrowElems.map (adjArrow sx sy oxq oyq) ∧
        ((-20 < ar.x1 ∧ ar.x1 < (nw : ℚ) + 20 ∧
            -20 < ar.y1 ∧ ar.y1 < (nh : ℚ) + 20) ∨
          (-20 < ar.x2 ∧ ar.x2 < (nw : ℚ) + 20 ∧
            -20 < ar.y2 ∧ ar.y2 < (nh : ℚ) + 20)))) := by
  subst hsx hsy hox hoy hnw hnh
  rw [completeCrop_success s cs ce img hcs hce himg hact hW hH hw hh]
  refine ⟨(completeCropCore_canvas s cs ce img).1,
    (completeCropCore_canvas s cs ce img).2, ?_, ?_, ?_⟩
  · intro m
    rw [completeCropCore_maskElems]
    show m ∈ List.filter _ _ ↔ _
    rw [List.mem_filter]
    simp [maskKeep]
  · intro tl
    rw [completeCropCore_textElems]
    show tl ∈ List.filter _ _ ↔ _
    rw [List.mem_filter]
    simp [textKeep]
  · intro ar
    rw [completeCropCore_arrowElems]
    show ar ∈ List.filter _ _ ↔ _
    rw [List.mem_filter]
    simp [arrowKeep, arrowPtVisible]

/-- Witness for C3: in the 800x600 scenario the re-anchored mask lands
at (-50,-50) and is dropped as fully outside the 200x150 result. -/
theorem crop_retention_margins_witness :
    scenarioState.activeTools Tool.crop = true ∧
      ({ etype := "rect", id := ElemId.anno 1, x := -50, y := -50,
         width := 20, height := 20, color := "#000000" } : RectMask) ∉
        (completeCrop scenarioState).maskElems := by
  have hret := crop_retention_margins scenarioState ⟨100, 100⟩ ⟨300, 250⟩
    { imgId := 0, naturalW := 800, naturalH := 600 } 1 1 100 100 200 150
    rfl rfl rfl rfl
    (by norm_num [scenarioState, blankState])
    (by norm_num [scenarioState, blankState])
    scenario_clSize_x scenario_clSize_y
    (by norm_num [scenarioState, blankState])
    (by norm_num [scenarioState, blankState])
    (by norm_num [scenarioState, blankState, srcStart, clStart, jsRound,
      abs_of_nonneg])
    (by norm_num [scenarioState, blankState, srcStart, clStart, jsRound,
      abs_of_nonneg])
    (by norm_num [scenarioState, blankState, srcSize, srcStart, clSize,
      clStart, jsRound, abs_of_nonneg])
    (by norm_num [scenarioState, blankState, srcSize, srcStart, clSize,
      clStart, jsRound, abs_of_nonneg])
  refine ⟨rfl, fun hmem => ?_⟩
  have h := (hret.2.2.1 _).mp hmem
  have hbound := h.2.1
  norm_num at hbound

/-- C1: on a successful completeCrop, every retained element is the
rounded re-anchoring (scale into native space, subtract the source
origin, round; sizes scaled and rounded) of an element present before
the crop; elements whose re-anchoring fails the retention margins are
removed; and no element list grows. -/
theorem crop_reanchor_round (s : EditorState) (cs ce : Pt)
    (img : OrigImage) (sx sy oxq oyq : ℚ) (nw nh : ℤ)
    (hcs : s.cropStart = some cs) (hce : s.cropEnd = some ce)
    (himg : s.originalImage = some img)
    (hact : s.activeTools Tool.crop = true)
    (hW : ¬ s.offW = 0) (hH : ¬ s.offH = 0)
    (hw : ¬ clSize cs.x ce.x s.offW ≤ 1)
    (hh : ¬ clSize cs.y ce.y s.offH ≤ 1)
    (hsx : sx = (img.naturalW : ℚ) / (s.offW : ℚ))
    (hsy : sy = (img.naturalH : ℚ) / (s.offH : ℚ))
    (hox : oxq = ((srcStart cs.x ce.x s.offW img.naturalW : ℤ) : ℚ))
    (hoy : oyq = ((srcStart cs.y ce.y s.offH img.naturalH : ℤ) : ℚ))
    (hnw : nw = srcSize cs.x ce.x s.offW img.naturalW)
    (hnh : nh = srcSize cs.y ce.y s.offH img.naturalH) :
    ((completeCrop s).maskElems.length ≤ s.maskElems.length ∧
     (completeCrop s).textElems.length ≤ s.textElems.length ∧
     (completeCrop s).arrowElems.length ≤ s.arrowElems.length) ∧
    ((∀ m' ∈ (completeCrop s).maskElems, ∃ m ∈ s.maskElems,
        m'.id = m.id ∧
        m'.x = ((jsRound (m.x * sx - oxq) : ℤ) : ℚ) ∧
        m'.y = ((jsRound (m.y * sy - oyq) : ℤ) : ℚ) ∧
        m'.width = ((jsRound (m.width * sx) : ℤ) : ℚ) ∧
        m'.height = ((jsRound (m.height * sy) : ℤ) : ℚ)) ∧
     (∀ tl' ∈ (completeCrop s).textElems, ∃ tl ∈ s.textElems,
        tl'.id = tl.id ∧ tl'.text = tl.text ∧
        tl'.x = ((jsRound (tl.x * sx - oxq) : ℤ) : ℚ) ∧
        tl'.y = ((jsRound (tl.y * sy - oyq) : ℤ) : ℚ)) ∧
     (∀ ar' ∈ (completeCrop s).arrowElems, ∃ ar ∈ s.arrowElems,
        ar'.id = ar.id ∧
        ar'.x1 = ((jsRound (ar.x1 * sx - oxq) : ℤ) : ℚ) ∧
        ar'.y1 = ((jsRound (ar.y1 * sy - oyq) : ℤ) : ℚ) ∧
        ar'.x2 = ((jsRound (ar.x2 * sx - oxq) : ℤ) : ℚ) ∧
        ar'.y2 = ((jsRound (ar.y2 * sy - oyq) : ℤ) : ℚ))) ∧
    ((∀ m ∈ s.maskElems, maskKeep nw nh (adjMask sx sy oxq oyq m) = false →
        adjMask sx sy oxq oyq m ∉ (completeCrop s).maskElems) ∧
     (∀ tl ∈ s.textElems, textKeep nw nh (adjText sx sy oxq oyq tl) = false →
        adjText sx sy oxq oyq tl ∉ (completeCrop s).textElems) ∧
     (∀ ar ∈ s.arrowElems,
        arrowKeep nw nh (adjArrow sx sy oxq oyq ar) = false →
        adjArrow sx sy oxq oyq ar ∉ (completeCrop s).arrowElems)) := by
  subst hsx hsy hox hoy hnw hnh
  rw [completeCrop_success s cs ce img hcs hce himg hact hW hH hw hh]
  rw [completeCropCore_maskElems, completeCropCore_textElems,
    completeCropCore_arrowElems]
  refine ⟨⟨?_, ?_, ?_⟩, ⟨?_, ?_, ?_⟩, ⟨?_, ?_, ?_⟩⟩
  · exact le_trans (List.length_filter_le _ _) (by rw [List.length_map])
  · exact le_trans (List.length_filter_le _ _) (by rw [List.length_map])
  · exact le_trans (List.length_filter_le _ _) (by rw [List.length_map])
  · intro m' hm'
    have hmem := (List.mem_filter.mp hm').1
    obtain ⟨m, hm, rfl⟩ := List.mem_map.mp hmem
    exact ⟨m, hm, rfl, rfl, rfl, rfl, rfl⟩
  · intro tl' htl'
    have hmem := (List.mem_filter.mp htl').1
    obtain ⟨tl, htl, rfl⟩ := List.mem_map.mp hmem
    exact ⟨tl, htl, rfl, rfl, rfl, rfl⟩
  · intro ar' har'
    have hmem := (List.mem_filter.mp har').1
    obtain ⟨ar, har, rfl⟩ := List.mem_map.mp hmem
    exact ⟨ar, har, rfl, rfl, rfl, rfl, rfl⟩
  · intro m hm hkeep hmem
    exact absurd (List.mem_filter.mp hmem).2 (by rw [hkeep]; simp)
  · intro tl htl hkeep hmem
    exact absurd (List.mem_filter.mp hmem).2 (by rw [hkeep]; simp)
  · intro ar har hkeep hmem
    exact absurd (List.mem_filter.mp hmem).2 (by rw [hkeep]; simp)

/-- Witness for C1 on the scenario session: the mask list does not
grow. -/
theorem crop_reanchor_round_witness :
    scenarioState.cropStart = some ⟨100, 100⟩ ∧
      (completeCrop scenarioState).maskElems.length ≤
        scenarioState.maskElems.length :=
  ⟨rfl,
    (crop_reanchor_round scenarioState ⟨100, 100⟩ ⟨300, 250⟩
      { imgId := 0, naturalW := 800, naturalH := 600 }
      ((800 : ℚ) / 800) ((600 : ℚ) / 600)
      ((srcStart 100 300 800 800 : ℤ) : ℚ)
      ((srcStart 100 250 600 600 : ℤ) : ℚ)
      (srcSize 100 300 800 800) (srcSize 100 250 600 600)
      rfl rfl rfl rfl
      (by norm_num [scenarioState, blankState])
      (by norm_num [scenarioState, blankState])
      scenario_clSize_x scenario_clSize_y
      rfl rfl rfl rfl rfl rfl).1.1⟩

/-- C4: pointer-up on a new-shape gesture commits a RectMask iff both
gesture dimensions exceed 1px and an Arrow iff the squared length
exceeds 25; every rejecting case leaves all element lists unchanged
and restores the visible canvas to the pre-gesture raster snapshot,
which pointer-down captured from the visible canvas. -/
theorem mouseup_commit_thresholds (s : EditorState) (a pos : Pt) (t : ℕ)
    (r0 : List DrawOp)
    (hmove : s.movingText = none) (hdraw : s.isDrawing = true)
    (hsnap : s.lastImageData = some r0)
    (hcrop : s.activeTools Tool.crop = false) :
    (s.activeTools Tool.annotate = true → s.annotateStart = some a →
      ((1 < |pos.x - a.x| ∧ 1 < |pos.y - a.y|) →
        (handleMouseUp s pos t).maskElems =
          s.maskElems ++ [newMaskElem a pos t] ∧
        (handleMouseUp s pos t).textElems = s.textElems ∧
        (handleMouseUp s pos t).arrowElems = s.arrowElems) ∧
      (¬ (1 < |pos.x - a.x| ∧ 1 < |pos.y - a.y|) →
        (handleMouseUp s pos t).maskElems = s.maskElems ∧
        (handleMouseUp s pos t).textElems = s.textElems ∧
        (handleMouseUp s pos t).arrowElems = s.arrowElems ∧
        (handleMouseUp s pos t).visible = r0)) ∧
    (s.activeTools Tool.annotate = false →
      s.activeTools Tool.arrow = true → s.arrowStart = some a →
      ((25 < (pos.x - a.x) ^ 2 + (pos.y - a.y) ^ 2) →
        (handleMouseUp s pos t).arrowElems =
          s.arrowElems ++ [newArrowElem a pos t] ∧
        (handleMouseUp s pos t).maskElems = s.maskElems ∧
        (handleMouseUp s pos t).textElems = s.textElems) ∧
      (¬ 25 < (pos.x - a.x) ^ 2 + (pos.y - a.y) ^ 2 →
        (handleMouseUp s pos t).maskElems = s.maskElems ∧
        (handleMouseUp s pos t).textElems = s.textElems ∧
        (handleMouseUp s pos t).arrowElems = s.arrowElems ∧
        (handleMouseUp s pos t).visible = r0)) ∧
    (∀ (sd : EditorState) (p : Pt) (td rd : ℕ) (hit : Bool),
      sd.isEditingText = false → sd.activeTools Tool.text = false →
      sd.activeTools Tool.crop = false → sd.activeTools Tool.arrow = false →
      sd.activeTools Tool.annotate = true →
      (handleMouseDown sd p td rd hit).lastImageData = some sd.visible ∧
      (handleMouseDown sd p td rd hit).isDrawing = true ∧
      (handleMouseDown sd p td rd hit).annotateStart = some p) ∧
    (∀ (sd : EditorState) (p : Pt) (td rd : ℕ) (hit : Bool),
      sd.isEditingText = false → sd.activeTools Tool.text = false →
      sd.activeTools Tool.arrow = true →
      (handleMouseDown sd p td rd hit).lastImageData = some sd.visible ∧
      (handleMouseDown sd p td rd hit).isDrawing = true ∧
      (handleMouseDown sd p td rd hit).arrowStart = some p ∧
      (handleMouseDown sd p td rd hit).arrowEnd = some p) := by
  refine ⟨?_, ?_, ?_, ?_⟩
  · intro hann hstart
    constructor
    · intro hsize
      simp [handleMouseUp, hmove, hdraw, mouseUpDraw, hcrop, hann, hstart,
        hsize, redrawCanvas, newMaskElem]
    · intro hsize
      simp [handleMouseUp, hmove, hdraw, mouseUpDraw, hcrop, hann, hstart,
        hsize, restoreCanvasState, hsnap]
  · intro hann harr hstart
    constructor
    · intro hsize
      simp [handleMouseUp, hmove, hdraw, mouseUpDraw, hcrop, hann, harr,
        hstart, hsize, redrawCanvas, newArrowElem]
    · intro hsize
      simp [handleMouseUp, hmove, hdraw, mouseUpDraw, hcrop, hann, harr,
        hstart, hsize, restoreCanvasState, hsnap]
  · intro sd p td rd hit hedit htext hcrop' harrow hann
    simp [handleMouseDown, hedit, htext, hcrop', harrow, hann,
      anyToolActive, saveCanvasState]
  · intro sd p td rd hit hedit htext harrow
    simp [handleMouseDown, hedit, htext, harrow, anyToolActive,
      saveCanvasState]

/-- A session with an arrow gesture in flight whose drag is shorter
than the minimum length. -/
def shortArrowState : EditorState :=
  { blankState with
    isDrawing := true
    activeTools := fun t => decide (t = Tool.arrow)
    arrowStart := some ⟨5, 5⟩
    arrowEnd := some ⟨5, 5⟩
    lastImageData := some [DrawOp.blit (OffContent.fromImage 0)] }

/-- Witness for C4: the 13px-squared arrow gesture is rejected, the
lists stay unchanged and the snapshot raster returns. -/
theorem mouseup_commit_thresholds_witness :
    shortArrowState.isDrawing = true ∧
      (handleMouseUp shortArrowState ⟨7, 8⟩ 9).arrowElems =
        shortArrowState.arrowElems ∧
      (handleMouseUp shortArrowState ⟨7, 8⟩ 9).visible =
        [DrawOp.blit (OffContent.fromImage 0)] := by
  have h := (mouseup_commit_thresholds shortArrowState ⟨5, 5⟩ ⟨7, 8⟩ 9
    [DrawOp.blit (OffContent.fromImage 0)] rfl rfl rfl rfl).2.1
    rfl rfl rfl
  have h2 := h.2 (by norm_num)
  exact ⟨rfl, h2.2.2.1, h2.2.2.2⟩

/-- The id-generating editing events of a session: mask and arrow
gesture commits (handleMouseUp), text finalization (showTextInput plus
finalizeTextInput) and crops (completeCrop); t and r carry the
Date.now() and random-suffix values the code reads when the event
runs. -/
inductive EditOp where
  | commitMask (a pos : Pt) (t : ℕ)
  | commitArrow (a pos : Pt) (t : ℕ)
  | textAdd (p : Pt) (t r : ℕ) (txt : String)
  | doCrop (cs ce : Pt)
deriving DecidableEq, Repr

/-- Run one editing event through the real handlers, after the user
has activated the matching tool (toggleTool leaves exactly that tool
active) and begun the gesture. -/
def applyOp (s : EditorState) : EditOp → EditorState
  | EditOp.commitMask a pos t =>
    handleMouseUp
      { s with
        isDrawing := true, movingText := none
        activeTools := fun u => decide (u = Tool.annotate)
        annotateStart := some a } pos t
  | EditOp.commitArrow a pos t =>
    handleMouseUp
      { s with
        isDrawing := true, movingText := none
        activeTools := fun u => decide (u = Tool.arrow)
        arrowStart := some a, arrowEnd := some a } pos t
  | EditOp.textAdd p t r txt =>
    finalizeTextInput
      { (showTextInput
          { s with
            isEditingText := false, currentText := none
            activeTools := fun u => decide (u = Tool.text) }
          p.x p.y t r) with
        textInputValue := txt }
  | EditOp.doCrop cs ce =>
    completeCrop
      { s with
        isDrawing := false, movingText := none
        activeTools := fun u => decide (u = Tool.crop)
        cropStart := some cs, cropEnd := some ce }

/-- The ids an event stamps onto any element it commits. -/
def opIds : EditOp → List ElemId
  | EditOp.commitMask _ _ t => [ElemId.anno t]
  | EditOp.commitArrow _ _ t => [ElemId.arr t]
  | EditOp.textAdd _ t r _ => [ElemId.txt t r]
  | EditOp.doCrop _ _ => []

/-- All ids stamped by a sequence of events. -/
def opsIds : List EditOp → List ElemId
  | [] => []
  | op :: rest => opIds op ++ opsIds rest

/-- The ids stored in the mask list. -/
def maskIds (s : EditorState) : List ElemId := s.maskElems.map fun m => m.id

/-- The ids stored in the text list. -/
def textIds (s : EditorState) : List ElemId := s.textElems.map fun t => t.id

/-- The ids stored in the arrow list. -/
def arrowIds (s : EditorState) : List ElemId :=
  s.arrowElems.map fun a => a.id

/-- A mask commit whose gesture passes the minimum size appends
exactly one mask stamped with the Date.now() id. -/
theorem applyOp_commitMask_accept (s : EditorState) (a pos : Pt) (t : ℕ)
    (h1 : 1 < |pos.x - a.x|) (h2 : 1 < |pos.y - a.y|) :
    (applyOp s (EditOp.commitMask a pos t)).maskElems =
      s.maskElems ++ [newMaskElem a pos t] ∧
    (applyOp s (EditOp.commitMask a pos t)).textElems = s.textElems ∧
    (applyOp s (EditOp.commitMask a pos t)).arrowElems = s.arrowElems := by
  simp [applyOp, handleMouseUp, mouseUpDraw, h1, h2, redrawCanvas]

/-- A mask commit either leaves the element lists unchanged (gesture
rejected) or appends exactly one freshly stamped mask. -/
theorem applyOp_commitMask_elems (s : EditorState) (a pos : Pt) (t : ℕ) :
    ((applyOp s (EditOp.commitMask a pos t)).maskElems = s.maskElems ∨
      (applyOp s (EditOp.commitMask a pos t)).maskElems =
        s.maskElems ++ [newMaskElem a pos t]) ∧
    (applyOp s (EditOp.commitMask a pos t)).textElems = s.textElems ∧
    (applyOp s (EditOp.commitMask a pos t)).arrowElems = s.arrowElems := by
  by_cases hsz : 1 < |pos.x - a.x| ∧ 1 < |pos.y - a.y|
  · obtain ⟨e1, e2, e3⟩ := applyOp_commitMask_accept s a pos t hsz.1 hsz.2
    exact ⟨Or.inr e1, e2, e3⟩
  · refine ⟨Or.inl ?_, ?_, ?_⟩ <;>
      simp [applyOp, handleMouseUp, mouseUpDraw, hsz, restoreCanvasState]

/-- An arrow commit either leaves the element lists unchanged or
appends exactly one freshly stamped arrow. -/
theorem applyOp_commitArrow_elems (s : EditorState) (a pos : Pt) (t : ℕ) :
    ((applyOp s (EditOp.commitArrow a pos t)).arrowElems = s.arrowElems ∨
      (applyOp s (EditOp.commitArrow a pos t)).arrowElems =
        s.arrowElems ++ [newArrowElem a pos t]) ∧
    (applyOp s (EditOp.commitArrow a pos t)).maskElems = s.maskElems ∧
    (applyOp s (EditOp.commitArrow a pos t)).textElems = s.textElems := by
  by_cases hsz : 25 < (pos.x - a.x) ^ 2 + (pos.y - a.y) ^ 2
  · refine ⟨Or.inr ?_, ?_, ?_⟩ <;>
      simp [applyOp, handleMouseUp, mouseUpDraw, hsz, redrawCanvas,
        newArrowElem]
  · refine ⟨Or.inl ?_, ?_, ?_⟩ <;>
      simp [applyOp, handleMouseUp, mouseUpDraw, hsz, restoreCanvasState]

/-- A text finalization with an id fresh for the text list either
commits nothing (blank input) or appends exactly one freshly stamped
label. -/
theorem applyOp_textAdd_elems (s : EditorState) (p : Pt) (t r : ℕ)
    (txt : String) (hfresh : ElemId.txt t r ∉ textIds s) :
    ((applyOp s (EditOp.textAdd p t r txt)).textElems = s.textElems ∨
      (applyOp s (EditOp.textAdd p t r txt)).textElems = s.textElems ++
        [{ id := ElemId.txt t r, text := txt, x := p.x, y := p.y,
           font := "20px sans-serif", color := "#FF0000",
           isEditing := false }]) ∧
    (applyOp s (EditOp.textAdd p t r txt)).maskElems = s.maskElems ∧
    (applyOp s (EditOp.textAdd p t r txt)).arrowElems = s.arrowElems := by
  have hany : (s.textElems.any fun e =>
      decide (e.id = ElemId.txt t r)) = false := by
    rw [List.any_eq_false]
    intro e he
    simp only [decide_eq_true_eq]
    intro heq
    exact hfresh (by
      rw [← heq]
      exact List.mem_map_of_mem (fun x => x.id) he)
  by_cases htrim : txt.trim = ""
  · refine ⟨Or.inl ?_, ?_, ?_⟩ <;>
      simp [applyOp, showTextInput, finalizeTextInput, hideTextInput,
        redrawCanvas, htrim]
  · refine ⟨Or.inr ?_, ?_, ?_⟩ <;>
      simp [applyOp, showTextInput, finalizeTextInput, hideTextInput,
        redrawCanvas, htrim, commitTextElems, hany]

/-- Re-anchoring keeps each mask id. -/
theorem adjMask_id (sx sy ox oy : ℚ) (m : RectMask) :
    (adjMask sx sy ox oy m).id = m.id := rfl

/-- completeCrop only ever drops elements: the stored id lists of the
result are sublists of the stored id lists before the call. -/
theorem completeCrop_ids_sublist (s : EditorState) :
    List.Sublist (maskIds (completeCrop s)) (maskIds s) ∧
    List.Sublist (textIds (completeCrop s)) (textIds s) ∧
    List.Sublist (arrowIds (completeCrop s)) (arrowIds s) := by
  have hcore : ∀ (cs ce : Pt) (img : OrigImage),
      List.Sublist (maskIds (completeCropCore s cs ce img)) (maskIds s) ∧
      List.Sublist (textIds (completeCropCore s cs ce img)) (textIds s) ∧
      List.Sublist (arrowIds (completeCropCore s cs ce img)) (arrowIds s) := by
    intro cs ce img
    refine ⟨?_, ?_, ?_⟩
    · show List.Sublist ((completeCropCore s cs ce img).maskElems.map _) _
      rw [completeCropCore_maskElems]
      have h1 := (List.filter_sublist (p := maskKeep
          (srcSize cs.x ce.x s.offW img.naturalW)
          (srcSize cs.y ce.y s.offH img.naturalH))
        (s.maskElems.map (adjMask
          ((img.naturalW : ℚ) / (s.offW : ℚ))
          ((img.naturalH : ℚ) / (s.offH : ℚ))
          ((srcStart cs.x ce.x s.offW img.naturalW : ℤ) : ℚ)
          ((srcStart cs.y ce.y s.offH img.naturalH : ℤ) : ℚ)))).map
        (fun m : RectMask => m.id)
      rw [List.map_map] at h1
      exact h1
    · show List.Sublist ((completeCropCore s cs ce img).textElems.map _) _
      rw [completeCropCore_textElems]
      have h1 := (List.filter_sublist (p := textKeep
          (srcSize cs.x ce.x s.offW img.naturalW)
          (srcSize cs.y ce.y s.offH img.naturalH))
        (s.textElems.map (adjText
          ((img.naturalW : ℚ) / (s.offW : ℚ))
          ((img.naturalH : ℚ) / (s.offH : ℚ))
          ((srcStart cs.x ce.x s.offW img.naturalW : ℤ) : ℚ)
          ((srcStart cs.y ce.y s.offH img.naturalH : ℤ) : ℚ)))).map
        (fun tl : TextLabel => tl.id)
      rw [List.map_map] at h1
      exact h1
    · show List.Sublist ((completeCropCore s cs ce img).arrowElems.map _) _
      rw [completeCropCore_arrowElems]
      have h1 := (List.filter_sublist (p := arrowKeep
          (srcSize cs.x ce.x s.offW img.naturalW)
          (srcSize cs.y ce.y s.offH img.naturalH))
        (s.arrowElems.map (adjArrow
          ((img.naturalW : ℚ) / (s.offW : ℚ))
          ((img.naturalH : ℚ) / (s.offH : ℚ))
          ((srcStart cs.x ce.x s.offW img.naturalW : ℤ) : ℚ)
          ((srcStart cs.y ce.y s.offH img.naturalH : ℤ) : ℚ)))).map
        (fun ar : ArrowElem => ar.id)
      rw [List.map_map] at h1
      exact h1
  cases hcs : s.cropStart with
  | none =>
    simp only [completeCrop, hcs]
    exact ⟨List.Sublist.refl _, List.Sublist.refl _, List.Sublist.refl _⟩
  | some cs =>
    cases hce : s.cropEnd with
    | none =>
      simp only [completeCrop, hcs, hce]
      exact ⟨List.Sublist.refl _, List.Sublist.refl _, List.Sublist.refl _⟩
    | some ce =>
      cases himg : s.originalImage with
      | none =>
        simp only [completeCrop, hcs, hce, himg]
        exact ⟨List.Sublist.refl _, List.Sublist.refl _,
          List.Sublist.refl _⟩
      | some img =>
        simp only [completeCrop, hcs, hce, himg]
        split_ifs with hact hdim hsmall
        · exact ⟨List.Sublist.refl _, List.Sublist.refl _,
            List.Sublist.refl _⟩
        · exact ⟨List.Sublist.refl _, List.Sublist.refl _,
            List.Sublist.refl _⟩
        · exact ⟨List.Sublist.refl _, List.Sublist.refl _,
            List.Sublist.refl _⟩
        · exact hcore cs ce img

/-- One editing event only adds ids it stamps itself, and preserves
per-list id uniqueness whenever its stamped ids are fresh for all
three element lists. -/
theorem applyOp_ids (s : EditorState) (op : EditOp)
    (hfresh : ∀ i ∈ opIds op,
      i ∉ maskIds s ∧ i ∉ textIds s ∧ i ∉ arrowIds s) :
    (maskIds (applyOp s op) ⊆ maskIds s ++ opIds op ∧
     textIds (applyOp s op) ⊆ textIds s ++ opIds op ∧
     arrowIds (applyOp s op) ⊆ arrowIds s ++ opIds op) ∧
    ((maskIds s).Nodup → (maskIds (applyOp s op)).Nodup) ∧
    ((textIds s).Nodup → (textIds (applyOp s op)).Nodup) ∧
    ((arrowIds s).Nodup → (arrowIds (applyOp s op)).Nodup) := by
  cases op with
  | commitMask a pos t =>
    obtain ⟨hm, ht, ha⟩ := applyOp_commitMask_elems s a pos t
    have htid : textIds (applyOp s (EditOp.commitMask a pos t)) =
        textIds s := by unfold textIds; rw [ht]
    have haid : arrowIds (applyOp s (EditOp.commitMask a pos t)) =
        arrowIds s := by unfold arrowIds; rw [ha]
    cases hm with
    | inl h =>
      have hmid : maskIds (applyOp s (EditOp.commitMask a pos t)) =
          maskIds s := by unfold maskIds; rw [h]
      rw [hmid, htid, haid]
      exact ⟨⟨List.subset_append_left _ _, List.subset_append_left _ _,
        List.subset_append_left _ _⟩, id, id, id⟩
    | inr h =>
      have hfr : ElemId.anno t ∉ maskIds s :=
        (hfresh _ (by simp [opIds])).1
      have hmid : maskIds (applyOp s (EditOp.commitMask a pos t)) =
          maskIds s ++ [ElemId.anno t] := by
        unfold maskIds; rw [h]; simp [newMaskElem]
      rw [hmid, htid, haid]
      refine ⟨⟨fun i hi => ?_, List.subset_append_left _ _,
        List.subset_append_left _ _⟩, fun hn => ?_, id, id⟩
      · simpa [opIds] using hi
      · simp [List.nodup_append, hn, hfr]
  | commitArrow a pos t =>
    obtain ⟨ha, hm, ht⟩ := applyOp_commitArrow_elems s a pos t
    have hmid : maskIds (applyOp s (EditOp.commitArrow a pos t)) =
        maskIds s := by unfold maskIds; rw [hm]
    have htid : textIds (applyOp s (EditOp.commitArrow a pos t)) =
        textIds s := by unfold textIds; rw [ht]
    cases ha with
    | inl h =>
      have haid : arrowIds (applyOp s (EditOp.commitArrow a pos t)) =
          arrowIds s := by unfold arrowIds; rw [h]
      rw [hmid, htid, haid]
      exact ⟨⟨List.subset_append_left _ _, List.subset_append_left _ _,
        List.subset_append_left _ _⟩, id, id, id⟩
    | inr h =>
      have hfr : ElemId.arr t ∉ arrowIds s :=
        (hfresh _ (by simp [opIds])).2.2
      have haid : arrowIds (applyOp s (EditOp.commitArrow a pos t)) =
          arrowIds s ++ [ElemId.arr t] := by
        unfold arrowIds; rw [h]; simp [newArrowElem]
      rw [hmid, htid, haid]
      refine ⟨⟨List.subset_append_left _ _, List.subset_append_left _ _,
        fun i hi => ?_⟩, id, id, fun hn => ?_⟩
      · simpa [opIds] using hi
      · simp [List.nodup_append, hn, hfr]
  | textAdd p t r txt =>
    have hfr : ElemId.txt t r ∉ textIds s :=
      (hfresh _ (by simp [opIds])).2.1
    obtain ⟨ht, hm, ha⟩ := applyOp_textAdd_elems s p t r txt hfr
    have hmid : maskIds (applyOp s (EditOp.textAdd p t r txt)) =
        maskIds s := by unfold maskIds; rw [hm]
    have haid : arrowIds (applyOp s (EditOp.textAdd p t r txt)) =
        arrowIds s := by unfold arrowIds; rw [ha]
    cases ht with
    | inl h =>
      have htid : textIds (applyOp s (EditOp.textAdd p t r txt)) =
          textIds s := by unfold textIds; rw [h]
      rw [hmid, htid, haid]
      exact ⟨⟨List.subset_append_left _ _, List.subset_append_left _ _,
        List.subset_append_left _ _⟩, id, id, id⟩
    | inr h =>
      have htid : textIds (applyOp s (EditOp.textAdd p t r txt)) =
          textIds s ++ [ElemId.txt t r] := by
        unfold textIds; rw [h]; simp
      rw [hmid, htid, haid]
      refine ⟨⟨List.subset_append_left _ _, fun i hi => ?_,
        List.subset_append_left _ _⟩, id, fun hn => ?_, id⟩
      · simpa [opIds] using hi
      · simp [List.nodup_append, hn, hfr]
  | doCrop cs ce =>
    have hsub := completeCrop_ids_sublist
      { s with
        isDrawing := false, movingText := none
        activeTools := fun u => decide (u = Tool.crop)
        cropStart := some cs, cropEnd := some ce }
    refine ⟨⟨?_, ?_, ?_⟩, fun hn => ?_, fun hn => ?_, fun hn => ?_⟩
    · exact fun i hi => List.mem_append_left _ (hsub.1.subset hi)
    · exact fun i hi => List.mem_append_left _ (hsub.2.1.subset hi)
    · exact fun i hi => List.mem_append_left _ (hsub.2.2.subset hi)
    · exact hsub.1.nodup hn
    · exact hsub.2.1.nodup hn
    · exact hsub.2.2.nodup hn

/-- C9 fails as stated: two mask gestures committed with the same
Date.now() value stamp the same id, so the mask list holds two
elements with id anno-5 and per-list id uniqueness is violated. -/
theorem element_ids_duplicate_same_stamp :
    ¬ (maskIds (List.foldl applyOp blankState
        [EditOp.commitMask ⟨0, 0⟩ ⟨10, 10⟩ 5,
         EditOp.commitMask ⟨0, 0⟩ ⟨10, 10⟩ 5])).Nodup := by
  have h1 := applyOp_commitMask_accept blankState ⟨0, 0⟩ ⟨10, 10⟩ 5
    (by norm_num [abs_of_nonneg]) (by norm_num [abs_of_nonneg])
  have h2 := applyOp_commitMask_accept
    (applyOp blankState (EditOp.commitMask ⟨0, 0⟩ ⟨10, 10⟩ 5))
    ⟨0, 0⟩ ⟨10, 10⟩ 5
    (by norm_num [abs_of_nonneg]) (by norm_num [abs_of_nonneg])
  simp only [List.foldl_cons, List.foldl_nil]
  unfold maskIds
  rw [h2.1, h1.1]
  simp [blankState, newMaskElem]

/-- C9 amended: starting from lists with unique ids, any sequence of
commit gestures, text finalizations and crops keeps every element-list
id unique, provided the ids stamped across the sequence are pairwise
distinct and unused (two commits sharing one Date.now() value break
this, as the counterexample shows). -/
theorem element_ids_unique (ops : List EditOp) (s : EditorState)
    (h1 : (maskIds s).Nodup) (h2 : (textIds s).Nodup)
    (h3 : (arrowIds s).Nodup) (h4 : (opsIds ops).Nodup)
    (h5 : ∀ i ∈ opsIds ops,
      i ∉ maskIds s ∧ i ∉ textIds s ∧ i ∉ arrowIds s) :
    (maskIds (List.foldl applyOp s ops)).Nodup ∧
    (textIds (List.foldl applyOp s ops)).Nodup ∧
    (arrowIds (List.foldl applyOp s ops)).Nodup := by
  induction ops generalizing s with
  | nil => exact ⟨h1, h2, h3⟩
  | cons op rest ih =>
    have hfresh : ∀ i ∈ opIds op,
        i ∉ maskIds s ∧ i ∉ textIds s ∧ i ∉ arrowIds s :=
      fun i hi => h5 i (by
        show i ∈ opIds op ++ opsIds rest
        exact List.mem_append_left _ hi)
    obtain ⟨⟨sm, st, sa⟩, nm, nt, na⟩ := applyOp_ids s op hfresh
    have h4s : (opIds op ++ opsIds rest).Nodup := h4
    have h4' : (opsIds rest).Nodup := (List.nodup_append.mp h4s).2.1
    have hdisj : ∀ i ∈ opsIds rest, i ∉ opIds op := by
      intro i hi hmem
      exact (List.nodup_append.mp h4s).2.2 hmem hi
    have h5' : ∀ i ∈ opsIds rest,
        i ∉ maskIds (applyOp s op) ∧ i ∉ textIds (applyOp s op) ∧
          i ∉ arrowIds (applyOp s op) := by
      intro i hi
      have hbase := h5 i (by
        show i ∈ opIds op ++ opsIds rest
        exact List.mem_append_right _ hi)
      have hop : i ∉ opIds op := hdisj i hi
      refine ⟨fun hmem => ?_, fun hmem => ?_, fun hmem => ?_⟩
      · rcases List.mem_append.mp (sm hmem) with h | h
        exacts [hbase.1 h, hop h]
      · rcases List.mem_append.mp (st hmem) with h | h
        exacts [hbase.2.1 h, hop h]
      · rcases List.mem_append.mp (sa hmem) with h | h
        exacts [hbase.2.2 h, hop h]
    simpa only [List.foldl_cons] using
      ih (applyOp s op) (nm h1) (nt h2) (na h3) h4' h5'

/-- Witness for the amended C9 on a concrete single-commit run. -/
theorem element_ids_unique_witness :
    (opsIds [EditOp.commitMask ⟨0, 0⟩ ⟨10, 10⟩ 1]).Nodup ∧
      (maskIds (List.foldl applyOp blankState
        [EditOp.commitMask ⟨0, 0⟩ ⟨10, 10⟩ 1])).Nodup :=
  ⟨by decide,
    (element_ids_unique [EditOp.commitMask ⟨0, 0⟩ ⟨10, 10⟩ 1] blankState
      (by decide) (by decide) (by decide) (by decide) (by decide)).1⟩
